import Mathlib

/-!
Verification of GithubAppHandlerBase against its specification.

Shallow embedding of the repository sources:
  - githubapp/events/event.py    (Event.normalize_dicts, Event.get_event,
    Event.match as EventNode.matchFields, Event.fix_attributes, Event.init)
  - githubapp/LazyCompletableGithubObject.py (the lazy object state machine)
  - githubapp/config.py          (ConfigValue)

Python dictionaries are modelled as insertion ordered association lists,
Python None as Option.none, and failure (raised exceptions) as Except.
-/

/-- Python dict read, d[k] or d.get(k): first entry with the key (keys built
through dinsert are unique, so first equals only). -/
def dlookup {α : Type} : List (String × α) → String → Option α
  | [], _ => none
  | p :: rest, k => if p.1 = k then some p.2 else dlookup rest k

/-- Python dict write, d[k] = v: overwrite the value in place if the key is
present, otherwise append the new entry at the end. -/
def dinsert {α : Type} (d : List (String × α)) (k : String) (v : α) :
    List (String × α) :=
  if d.any (fun p => p.1 == k) then
    d.map (fun p => if p.1 = k then (k, v) else p)
  else
    d ++ [(k, v)]

/-- Fuel-indexed executable version of Python str.replace on char lists:
scan left to right, replace each non overlapping occurrence of pat by rep. -/
def replaceAux (pat rep : List Char) : Nat → List Char → List Char
  | 0, cs => cs
  | _ + 1, [] => []
  | fuel + 1, c :: rest =>
    if pat.isPrefixOf (c :: rest) && !pat.isEmpty then
      rep ++ replaceAux pat rep fuel (List.drop pat.length (c :: rest))
    else
      c :: replaceAux pat rep fuel rest

/-- Python str.replace(pat, rep) for non empty pat, on strings. -/
def pyReplace (s pat rep : String) : String :=
  String.mk (replaceAux pat.toList rep.toList (s.toList.length + 1) s.toList)

/-- Python str.startswith. -/
def pyStartswith (s pre : String) : Bool :=
  pre.toList.isPrefixOf s.toList

/-- Key normalization from Event.normalize_dicts:
attr.lower(); attr.replace("x-github-", ""); re.sub(r"[- ]", "_", attr). -/
def normKey (attr : String) : String :=
  let lowered := attr.toList.map Char.toLower
  let stripped := replaceAux "x-github-".toList [] (lowered.length + 1) lowered
  String.mk (stripped.map (fun c => if c == '-' || c == ' ' then '_' else c))

/-- Event.normalize_dicts(*dicts): fold every dict in order into one
union dict, normalizing each key and writing with Python dict assignment. -/
def Event.normalize_dicts {α : Type} (dicts : List (List (String × α))) :
    List (String × α) :=
  dicts.foldl
    (fun union_dict d =>
      d.foldl (fun u p => dinsert u (normKey p.1) p.2) union_dict)
    []

/-- C1 counterexample input: a headers dict and a body dict colliding on the
normalized key thing. -/
def c1_headers : List (String × String) := [("X-Github-Thing", "fromHeaders")]

def c1_body : List (String × String) := [("thing", "fromBody")]

/-- A node of the event classification tree: an Event subclass with its
event_identifier dict and its registered subclasses in registration order. -/
inductive EventNode (α : Type) : Type where
  | mk (event_identifier : List (String × α)) (subclasses : List (EventNode α))

def EventNode.event_identifier {α : Type} : EventNode α → List (String × α)
  | .mk i _ => i

def EventNode.subclasses {α : Type} : EventNode α → List (EventNode α)
  | .mk _ s => s

/-- Event.match (source name: match, a reserved word in Lean): true iff every
attr, value pair of the event_identifier is present in data with that value. -/
def EventNode.matchFields {α : Type} [BEq α] (cls : EventNode α)
    (data : List (String × α)) : Bool :=
  cls.event_identifier.all (fun p =>
    match dlookup data p.1 with
    | some v => v == p.2
    | none => false)

mutual
/-- Event.get_event: normalize headers and body, then return the first
matching subclass refined recursively, or the current class if none match. -/
def Event.get_event {α : Type} [BEq α] (headers body : List (String × α)) :
    EventNode α → EventNode α
  | .mk ident subs =>
    Event.get_event_go headers body (Event.normalize_dicts [headers, body])
      subs (EventNode.mk ident subs)

/-- The subclass loop inside Event.get_event, with the enclosing class as
fallback result. -/
def Event.get_event_go {α : Type} [BEq α]
    (headers body union_dict : List (String × α)) :
    List (EventNode α) → EventNode α → EventNode α
  | [], event_class => event_class
  | e :: rest, event_class =>
    if EventNode.matchFields e union_dict then Event.get_event headers body e
    else Event.get_event_go headers body union_dict rest event_class
end

/-- Spec side classifier, following section 4.2 of the specification text:
a depth first search that at each node takes the first child in registration
order whose required fields all match the normalized request, descends into
it, and returns the current node when no child matches. -/
def Event.classifySpec {α : Type} [BEq α] (data : List (String × α)) :
    EventNode α → EventNode α
  | .mk ident subs =>
    match h : subs.find? (fun c => EventNode.matchFields c data) with
    | some c => Event.classifySpec data c
    | none => .mk ident subs
termination_by n => sizeOf n
decreasing_by
  simp_wf
  have hm := List.mem_of_find?_eq_some h
  have := List.sizeOf_lt_of_mem hm
  omega

/-- Errors that the fetch path can raise: missing credential material,
a failed token exchange, a failed HTTP request. -/
inductive FetchErr : Type where
  | missingPrivateKey
  | exchangeFailed
  | httpFailed
deriving DecidableEq

/-- A github.Requester, identified by the token it authenticates with. -/
structure Requester : Type where
  token : String
deriving DecidableEq

/-- The instance dict of a LazyCompletableGithubObject.

rawFields stores the PyGithub attribute slots: the outer none is the NotSet
marker, some none is a field set to None, some (some v) is a set value.
declared is the class level list of attribute names from _initAttributes,
and url is the resource url the fetch targets (self.url). -/
structure LazyObj : Type where
  declared : List String
  rawFields : List (String × Option (Option String))
  url : String
  _lazy_initialized : Bool
  _lazy_requester : Option Requester
  completed : Bool

/-- LazyCompletableGithubObject.__init__(requester, headers, attributes,
completed): _initAttributes resets every declared slot to NotSet, then
_useAttributes stores the attributes present in the payload; at the end
_lazy_initialized is True and _lazy_requester is None. -/
def LazyObj.init (declared : List String) (url : String)
    (data : List (String × Option String)) (completed : Bool) : LazyObj :=
  { declared := declared
    rawFields := declared.map (fun f => (f, dlookup data f))
    url := url
    _lazy_initialized := true
    _lazy_requester := none
    completed := completed }

/-- super().__getattribute__(item) on a resource field, as the PyGithub
property layer exposes it: a NotSet slot and a None value both read as
Python None; only a set non None value reads as itself. -/
def LazyObj.superRead (st : LazyObj) (item : String) : Option String :=
  match dlookup st.rawFields item with
  | some (some (some v)) => some v
  | some (some none) => none
  | some none => none
  | none => none

/-- The external collaborators of the fetch path: os.getenv("PRIVATE_KEY"),
the private-key.pem file, GithubIntegration.get_access_token (taking the
app id, the private key and the installation id), and
Requester.requestJsonAndCheck("GET", url). -/
structure Env : Type where
  getenv_private_key : Option String
  private_key_file : Option String
  get_access_token : Int → String → Int → Except FetchErr String
  requestJsonAndCheck :
    Requester → String → Except FetchErr (List (String × Option String))

/-- The lazy_requester property: return the cached requester if present;
otherwise read the private key (environment variable first, falling back to
the key file when the variable is unset or empty), exchange it for an
installation token, build a Requester and cache it on the object. Returns
the result, the updated object, and how many token exchanges were
attempted. -/
def LazyCompletableGithubObject.lazy_requester (env : Env)
    (app_id installation_id : Int) (st : LazyObj) :
    Except FetchErr Requester × LazyObj × Nat :=
  match st._lazy_requester with
  | some r => (Except.ok r, st, 0)
  | none =>
    match (match env.getenv_private_key with
           | some pk => if pk = "" then env.private_key_file else some pk
           | none => env.private_key_file) with
    | none => (Except.error FetchErr.missingPrivateKey, st, 0)
    | some private_key =>
      match env.get_access_token app_id private_key installation_id with
      | Except.error e => (Except.error e, st, 1)
      | Except.ok tok =>
        (Except.ok ⟨tok⟩, { st with _lazy_requester := some ⟨tok⟩ }, 1)

/-- The outcome of one intercepted attribute access: the returned value or
the raised error, the object state afterwards, and how many HTTP fetches
and token exchanges the access performed. -/
structure Access : Type where
  result : Except FetchErr (Option String)
  st : LazyObj
  fetches : Nat
  exchanges : Nat

/-- LazyCompletableGithubObject.__getattribute__(item): read the value; if
the name is not lazy machinery, initialization is done, no requester is
cached and the value is None, fetch self.url through lazy_requester, build
new_self from the response with completed=True, replace the whole instance
dict with the dict of new_self (which carries _lazy_requester=None again),
and re-read. Errors of the exchange or of the request propagate. -/
def LazyCompletableGithubObject.getattribute (env : Env)
    (app_id installation_id : Int) (st : LazyObj) (item : String) : Access :=
  let value := st.superRead item
  if !pyStartswith item "_lazy" && st._lazy_initialized
      && st._lazy_requester.isNone && value.isNone then
    match LazyCompletableGithubObject.lazy_requester env app_id
        installation_id st with
    | (Except.error e, st1, ex) => ⟨Except.error e, st1, 0, ex⟩
    | (Except.ok r, st1, ex) =>
      match env.requestJsonAndCheck r st1.url with
      | Except.error e => ⟨Except.error e, st1, 1, ex⟩
      | Except.ok data =>
        let st2 := LazyObj.init st1.declared st1.url data true
        ⟨Except.ok (st2.superRead item), st2, 1, ex⟩
  else
    ⟨Except.ok value, st, 0, 0⟩

/-- The class object of a PyGithub resource class: its base classes and its
declared attribute names. -/
structure PyClass : Type where
  bases : List String
  declared : List String

/-- The class mutation step of get_lazy_instance (the make_lazy operation of
the spec): graft LazyCompletableGithubObject onto the bases if absent. -/
def LazyCompletableGithubObject.make_lazy (clazz : PyClass) : PyClass :=
  if "LazyCompletableGithubObject" ∈ clazz.bases then clazz
  else { clazz with bases := "LazyCompletableGithubObject" :: clazz.bases }

/-- LazyCompletableGithubObject.get_lazy_instance(clazz, attributes): make
clazz a subclass of LazyCompletableGithubObject, then construct an instance
from the attributes (requester None, completed defaulting to True). -/
def LazyCompletableGithubObject.get_lazy_instance (clazz : PyClass)
    (attributes : List (String × Option String)) : PyClass × LazyObj :=
  let clazz2 := LazyCompletableGithubObject.make_lazy clazz
  (clazz2,
    LazyObj.init clazz2.declared
      (match dlookup attributes "url" with
       | some (some u) => u
       | _ => "")
      attributes true)

/-- A collaborator set whose token exchange succeeds and whose GET on any
url answers with an empty payload. -/
def c2_env : Env :=
  { getenv_private_key := some "private-key"
    private_key_file := none
    get_access_token := fun _ _ _ => Except.ok "installation-token"
    requestJsonAndCheck := fun _ _ => Except.ok [] }

/-- A lazy resource whose only declared field attr1 is absent from the
construction payload. -/
def c2_st : LazyObj := LazyObj.init ["attr1"] "resource-url" [] false

def c3_env : Env :=
  { getenv_private_key := some "private-key"
    private_key_file := none
    get_access_token := fun _ _ _ => Except.ok "installation-token"
    requestJsonAndCheck := fun _ _ => Except.ok [] }

def c3_st : LazyObj := LazyObj.init ["attr1"] "resource-url" [] false

def c3w_env : Env :=
  { getenv_private_key := some "private-key"
    private_key_file := none
    get_access_token := fun _ _ _ => Except.ok "installation-token"
    requestJsonAndCheck := fun _ _ => Except.ok [("attr1", some "value1")] }

def c4_env : Env :=
  { getenv_private_key := some "private-key"
    private_key_file := none
    get_access_token := fun _ _ _ => Except.ok "installation-token"
    requestJsonAndCheck := fun _ _ => Except.error FetchErr.httpFailed }

def c4_st : LazyObj := LazyObj.init ["attr1"] "resource-url" [] false

def c4w_env : Env :=
  { getenv_private_key := some "private-key"
    private_key_file := none
    get_access_token := fun _ _ _ => Except.ok "installation-token"
    requestJsonAndCheck := fun _ _ => Except.error FetchErr.httpFailed }

def c5_env : Env :=
  { getenv_private_key := some "private-key"
    private_key_file := none
    get_access_token := fun _ _ _ => Except.ok "installation-token"
    requestJsonAndCheck := fun _ _ => Except.ok [("attr1", some "value1")] }

/-- A resource constructed from a payload that set attr1 to None: the slot
holds a set None, not the NotSet marker. -/
def c5_st : LazyObj :=
  LazyObj.init ["attr1"] "resource-url" [("attr1", none)] true

def c5w_env : Env :=
  { getenv_private_key := some "private-key"
    private_key_file := none
    get_access_token := fun _ _ _ => Except.ok "installation-token"
    requestJsonAndCheck := fun _ _ => Except.ok [("attr1", some "value1")] }

/-- A configuration value: either a plain basic value or a ConfigValue
object holding named sub values. -/
inductive ConfigTree : Type where
  | basic (v : String)
  | node (attrs : List (String × ConfigTree))

/-- The errors of configuration access: the ConfigError raised by
ConfigValue.__getattr__, distinct from the plain AttributeError a basic
Python value raises on attribute access. -/
inductive ConfigErr : Type where
  | noSuchValue (item : String)
  | attributeError (item : String)

/-- ConfigValue.__getattr__: called when the attribute is not found; raises
ConfigError (no such config value, and no default). On a basic value,
Python raises a plain AttributeError instead. -/
def ConfigValue.getattr : ConfigTree → String → Except ConfigErr ConfigTree
  | ConfigTree.node attrs, item =>
    match dlookup attrs item with
    | some v => Except.ok v
    | none => Except.error (ConfigErr.noSuchValue item)
  | ConfigTree.basic _, item => Except.error (ConfigErr.attributeError item)

/-- getattr(value, name, default): the three argument Python getattr never
raises; a missing attribute or a basic receiver yields the default. -/
def ConfigValue.getattr_or : ConfigTree → String → ConfigTree → ConfigTree
  | ConfigTree.node attrs, item, d =>
    match dlookup attrs item with
    | some v => v
    | none => d
  | ConfigTree.basic _, _, d => d

/-- Python str.split(".") on the list of characters. -/
def splitDots : List Char → List (List Char)
  | [] => [[]]
  | c :: rest =>
    if c = '.' then [] :: splitDots rest
    else
      match splitDots rest with
      | [] => [[c]]
      | g :: gs => (c :: g) :: gs

def pySplitDot (s : String) : List String :=
  (splitDots s.toList).map String.mk

/-- ConfigValue.get(config_name, default): walk the dot separated path with
getattr; with the __NO_DEFAULT__ sentinel (modelled as default none) a
missing step raises, otherwise the default is substituted. -/
def ConfigValue.get (c : ConfigTree) (config_name : String)
    (default : Option ConfigTree) : Except ConfigErr ConfigTree :=
  (pySplitDot config_name).foldlM
    (fun value name =>
      match default with
      | none => ConfigValue.getattr value name
      | some d => Except.ok (ConfigValue.getattr_or value name d))
    c

/-- A decoded JSON body value. -/
inductive BVal : Type where
  | s (v : String)
  | n (v : Int)
  | b (v : Bool)
  | null
  | obj (fields : List (String × BVal))

def digitsToNatAux : Nat → List Char → Option Nat
  | acc, [] => some acc
  | acc, c :: rest =>
    if c.isDigit then digitsToNatAux (acc * 10 + (c.toNat - 48)) rest
    else none

/-- Python int(str) on decimal literals. -/
def pyToInt (s : String) : Option Int :=
  match s.toList with
  | [] => none
  | '-' :: rest =>
    match rest with
    | [] => none
    | _ => (digitsToNatAux 0 rest).map (fun n => -(n : Int))
  | cs => (digitsToNatAux 0 cs).map (fun n => (n : Int))

/-- headers[k]: raises KeyError when the key is absent. -/
def hget (headers : List (String × String)) (k : String) :
    Except String String :=
  match dlookup headers k with
  | some v => Except.ok v
  | none => Except.error k

/-- int(s): raises ValueError on a non numeric string. -/
def toIntE (s : String) : Except String Int :=
  match pyToInt s with
  | some n => Except.ok n
  | none => Except.error s

/-- Python truthiness of a body value. -/
def BVal.truthy : BVal → Bool
  | BVal.s v => !(v == "")
  | BVal.n i => !(i == 0)
  | BVal.b v => v
  | BVal.null => false
  | BVal.obj l => !l.isEmpty

/-- int(value) on a body value. -/
def toIntB : BVal → Except String Int
  | BVal.n i => Except.ok i
  | BVal.s v => toIntE v
  | BVal.b v => Except.ok (if v then 1 else 0)
  | _ => Except.error "TypeError"

/-- The class attributes of Event that __init__ assigns: they are class
level, shared by every Event instance of the process. -/
structure EventClassState : Type where
  delivery : Option String
  github_event : Option String
  hook_id : Option Int
  hook_installation_target_id : Option Int
  hook_installation_target_type : Option String
  installation_id : Option BVal
  raw_headers : Option (List (String × String))
  raw_body : Option (List (String × BVal))

/-- The class attribute values before any event was constructed (all None
in the class body). -/
def EventClassState.initial : EventClassState :=
  ⟨none, none, none, none, none, none, none, none⟩

/-- A PyGithub object built by Event._parse_object: clazz(requester=...,
headers an empty dict, attributes=value, completed=False). -/
structure ParsedObj : Type where
  requester : Nat
  attributes : List (String × BVal)
  completed : Bool

/-- Event.fix_attributes: when the url points at the human facing site,
rewrite it into the API endpoint in place. -/
def Event.fix_attributes (attributes : List (String × BVal)) :
    List (String × BVal) :=
  match dlookup attributes "url" with
  | some (BVal.s u) =>
    if pyStartswith u "https://github" then
      dinsert attributes "url"
        (BVal.s (pyReplace
          (pyReplace u "https://github.com" "https://api.github.com/repos")
          "/commit/" "/commits/"))
    else attributes
  | _ => attributes

/-- Event._parse_object: None stays None, otherwise fix the attributes and
build the object incomplete. -/
def Event.parse_object (requester : Nat)
    (value : Option (List (String × BVal))) : Option ParsedObj :=
  match value with
  | none => none
  | some v =>
    some { requester := requester, attributes := Event.fix_attributes v,
           completed := false }

/-- The per instance attributes an Event constructor sets on self. -/
structure EventInst : Type where
  gh : Nat
  requester : Nat
  repository : Option ParsedObj
  sender : Option ParsedObj
  check_run : Option Nat

/-- kwargs.get("installation", empty-dict-default).get("id"): None when absent;
raises when the installation entry is not a dict. -/
def Event.installation_id_of (body : List (String × BVal)) :
    Except String (Option BVal) :=
  match dlookup body "installation" with
  | none => Except.ok none
  | some (BVal.obj fields) =>
    match dlookup fields "id" with
    | none => Except.ok none
    | some v => Except.ok (some v)
  | some _ => Except.error "AttributeError"

/-- Event.__init__(gh, requester, headers, sender, repository, **kwargs):
assigns every metadata attribute on the Event class (not on the instance),
ignoring and overwriting whatever class state was there before, and builds
the per instance attributes. The walrus conditional converts a truthy
installation id with int() and stores a falsy one as is. -/
def Event.init (gh requester : Nat) (headers : List (String × String))
    (sender repository : Option (List (String × BVal)))
    (body : List (String × BVal)) (_cls : EventClassState) :
    Except String (EventClassState × EventInst) := do
  let delivery ← hget headers "X-Github-Delivery"
  let github_event ← hget headers "X-Github-Event"
  let hook_id ← toIntE (← hget headers "X-Github-Hook-Id")
  let target_id ← toIntE (← hget headers "X-Github-Hook-Installation-Target-Id")
  let target_type ← hget headers "X-Github-Hook-Installation-Target-Type"
  let rawInst ← Event.installation_id_of body
  let installation_id ←
    match rawInst with
    | some v =>
      if BVal.truthy v then
        match toIntB v with
        | Except.ok i => Except.ok (some (BVal.n i))
        | Except.error e => Except.error e
      else Except.ok (some v)
    | none => Except.ok (none : Option BVal)
  Except.ok
    ({ delivery := some delivery
       github_event := some github_event
       hook_id := some hook_id
       hook_installation_target_id := some target_id
       hook_installation_target_type := some target_type
       installation_id := installation_id
       raw_headers := some headers
       raw_body := some body },
     { gh := gh
       requester := requester
       repository := Event.parse_object requester repository
       sender := Event.parse_object requester sender
       check_run := none })

/-- Reading the delivery attribute of an event instance: the attribute
lives on the Event class, so the read consults the shared class state. -/
def Event.read_delivery (_inst : EventInst) (cls : EventClassState) :
    Option String :=
  cls.delivery

def c8_headers1 : List (String × String) :=
  [("X-Github-Delivery", "d1"), ("X-Github-Event", "pull_request"),
   ("X-Github-Hook-Id", "1"), ("X-Github-Hook-Installation-Target-Id", "2"),
   ("X-Github-Hook-Installation-Target-Type", "integration")]

def c8_headers2 : List (String × String) :=
  [("X-Github-Delivery", "d2"), ("X-Github-Event", "pull_request"),
   ("X-Github-Hook-Id", "1"), ("X-Github-Hook-Installation-Target-Id", "2"),
   ("X-Github-Hook-Installation-Target-Type", "integration")]

def c8_body : List (String × BVal) :=
  [("action", BVal.s "opened"),
   ("installation", BVal.obj [("id", BVal.n 55)])]

/-- The class state and instance after constructing the first event. -/
def c8_first : EventClassState × EventInst :=
  match Event.init 0 0 c8_headers1 none none c8_body
      EventClassState.initial with
  | Except.ok p => p
  | Except.error _ => (EventClassState.initial, ⟨0, 0, none, none, none⟩)

/-- The class state and instance after constructing a second event while
the first one is still alive. -/
def c8_second : EventClassState × EventInst :=
  match Event.init 0 0 c8_headers2 none none c8_body c8_first.1 with
  | Except.ok p => p
  | Except.error _ => (EventClassState.initial, ⟨0, 0, none, none, none⟩)

theorem dlookup_map_overwrite {α : Type} (d : List (String × α))
    (k k' : String) (v : α) (hne : k' ≠ k) :
    dlookup (d.map (fun p => if p.1 = k then (k, v) else p)) k'
      = dlookup d k' := by
  induction d with
  | nil => rfl
  | cons a rest ih =>
    simp only [List.map_cons]
    by_cases hak : a.1 = k
    · rw [if_pos hak]
      by_cases hak' : a.1 = k'
      · exact absurd (hak'.symm.trans hak) hne
      · simp [dlookup, hak', show ¬(k = k') from fun h => hne h.symm, ih]
    · rw [if_neg hak]
      by_cases hak' : a.1 = k' <;> simp [dlookup, hak', ih]

theorem dlookup_map_overwrite_self {α : Type} (d : List (String × α))
    (k : String) (v : α) (hmem : d.any (fun p => p.1 == k) = true) :
    dlookup (d.map (fun p => if p.1 = k then (k, v) else p)) k = some v := by
  induction d with
  | nil => simp at hmem
  | cons a rest ih =>
    by_cases hak : a.1 = k
    · simp [dlookup, hak]
    · have hmem' : rest.any (fun p => p.1 == k) = true := by
        simpa [hak] using hmem
      simp [dlookup, hak, ih hmem']

theorem dlookup_append_single {α : Type} (d : List (String × α))
    (k k' : String) (v : α) :
    d.any (fun p => p.1 == k) = false →
    dlookup (d ++ [(k, v)]) k' = if k' = k then some v else dlookup d k' := by
  induction d with
  | nil =>
    intro _
    by_cases hkk : k' = k
    · simp [dlookup, hkk]
    · simp [dlookup, hkk, show ¬(k = k') from fun h => hkk h.symm]
  | cons a rest ih =>
    intro habs
    simp only [List.any_cons, Bool.or_eq_false_iff] at habs
    obtain ⟨hak, hrest⟩ := habs
    have hakp : ¬(a.1 = k) := by simpa using hak
    by_cases hak' : a.1 = k'
    · have hkk : ¬(k' = k) := fun h => hakp (hak'.trans h)
      simp [dlookup, hak', hkk]
    · simp [dlookup, hak', ih hrest]

theorem dlookup_dinsert {α : Type} (d : List (String × α)) (k k' : String)
    (v : α) :
    dlookup (dinsert d k v) k' = if k' = k then some v else dlookup d k' := by
  unfold dinsert
  cases hany : d.any (fun p => p.1 == k) with
  | true =>
    simp only [if_true]
    by_cases hkk : k' = k
    · rw [hkk, if_pos rfl]
      exact dlookup_map_overwrite_self d k v hany
    · rw [if_neg hkk]
      exact dlookup_map_overwrite d k k' v hkk
  | false =>
    rw [if_neg (by simp [hany])]
    exact dlookup_append_single d k k' v hany

/-- Folding one dict into an arbitrary union dict: a key reads as the last
write the dict performs on it, falling back to the prior union otherwise. -/
theorem dlookup_foldl_dinsert {α : Type} (d : List (String × α)) :
    ∀ (u : List (String × α)) (k : String),
    dlookup (d.foldl (fun u2 p => dinsert u2 (normKey p.1) p.2) u) k
      = (dlookup (d.foldl (fun u2 p => dinsert u2 (normKey p.1) p.2) []) k
          ).orElse (fun _ => dlookup u k) := by
  induction d with
  | nil => intro u k; rfl
  | cons p rest ih =>
    intro u k
    simp only [List.foldl_cons]
    rw [ih (dinsert u (normKey p.1) p.2) k,
        ih (dinsert [] (normKey p.1) p.2) k]
    simp only [dlookup_dinsert]
    by_cases hk : k = normKey p.1
    · simp only [if_pos hk]
      cases dlookup (rest.foldl (fun u2 p => dinsert u2 (normKey p.1) p.2) []) k
        <;> simp [Option.orElse]
    · simp only [if_neg hk]
      cases dlookup (rest.foldl (fun u2 p => dinsert u2 (normKey p.1) p.2) []) k
        <;> simp [Option.orElse, dlookup]

/-- C1: the claim says the value from the earlier dictionary is kept on a
normalized key collision. Counterexample: with a collision between headers
(earlier) and body (later), normalize_dicts keeps the body value. -/
theorem c1_counterexample :
    dlookup (Event.normalize_dicts [c1_headers, c1_body]) "thing"
      = some "fromBody" ∧ ("fromBody" : String) ≠ "fromHeaders" := by
  constructor
  · rfl
  · decide

/-- C1 amended: later entries do overwrite earlier ones. For any pair of
dictionaries merged by normalize_dicts, a key reads as the value written by
the later dictionary when present there, and only otherwise as the value
from the earlier dictionary. -/
theorem c1_normalize_later_overwrites {α : Type}
    (headers body : List (String × α)) (k : String) :
    dlookup (Event.normalize_dicts [headers, body]) k
      = (dlookup (Event.normalize_dicts [body]) k).orElse
          (fun _ => dlookup (Event.normalize_dicts [headers]) k) := by
  unfold Event.normalize_dicts
  simp only [List.foldl_cons, List.foldl_nil]
  exact dlookup_foldl_dinsert body
    (headers.foldl (fun u2 p => dinsert u2 (normKey p.1) p.2) []) k

theorem get_event_go_eq_find {α : Type} [BEq α]
    (headers body : List (String × α)) :
    ∀ (subs : List (EventNode α)) (fb : EventNode α),
    (∀ c ∈ subs, Event.get_event headers body c
        = Event.classifySpec (Event.normalize_dicts [headers, body]) c) →
    Event.get_event_go headers body (Event.normalize_dicts [headers, body])
        subs fb
      = (match subs.find? (fun c =>
            EventNode.matchFields c (Event.normalize_dicts [headers, body]))
          with
          | some c =>
            Event.classifySpec (Event.normalize_dicts [headers, body]) c
          | none => fb) := by
  intro subs
  induction subs with
  | nil => intro fb _; rfl
  | cons e rest ih =>
    intro fb hall
    rw [Event.get_event_go]
    cases hm : EventNode.matchFields e (Event.normalize_dicts [headers, body])
      with
    | true =>
      have hfc : List.find? (fun c =>
            EventNode.matchFields c (Event.normalize_dicts [headers, body]))
            (e :: rest) = some e :=
        List.find?_cons_of_pos rest hm
      rw [if_pos rfl, hfc]
      exact hall e (List.mem_cons_self e rest)
    | false =>
      have hfc : List.find? (fun c =>
            EventNode.matchFields c (Event.normalize_dicts [headers, body]))
            (e :: rest)
          = List.find? (fun c =>
            EventNode.matchFields c (Event.normalize_dicts [headers, body]))
            rest :=
        List.find?_cons_of_neg rest (by simp [hm])
      rw [if_neg (by simp), hfc]
      exact ih fb (fun c hc => hall c (List.mem_cons_of_mem e hc))

theorem get_event_eq_classifySpec_aux {α : Type} [BEq α]
    (headers body : List (String × α)) :
    ∀ (fuel : Nat) (n : EventNode α), sizeOf n < fuel →
    Event.get_event headers body n
      = Event.classifySpec (Event.normalize_dicts [headers, body]) n := by
  intro fuel
  induction fuel with
  | zero => intro n hn; omega
  | succ fuel ih =>
    intro n hn
    cases n with
    | mk ident subs =>
      rw [Event.get_event, Event.classifySpec]
      rw [get_event_go_eq_find headers body subs (EventNode.mk ident subs)
        (fun c hc => ih c (by
          have h1 := List.sizeOf_lt_of_mem hc
          have h2 : sizeOf (EventNode.mk ident subs)
              = 1 + sizeOf ident + sizeOf subs := by simp
          omega))]
      cases hfind : subs.find? (fun c =>
          EventNode.matchFields c (Event.normalize_dicts [headers, body])) with
      | none => simp [hfind]
      | some c => simp [hfind]

/-- C6: classification is a depth first search descending into the first
child, in registration order, whose required fields all match the normalized
request, returning the current (possibly root) class when no child matches:
Event.get_event coincides with the classifier written from the spec text. -/
theorem c6_get_event_refines_spec_classification {α : Type} [BEq α]
    (headers body : List (String × α)) (n : EventNode α) :
    Event.get_event headers body n
      = Event.classifySpec (Event.normalize_dicts [headers, body]) n :=
  get_event_eq_classifySpec_aux headers body (sizeOf n + 1) n
    (Nat.lt_succ_self _)

/-- C10: a descriptor with an empty event_identifier matches every
normalized request, and when such a descriptor is the first registered
subclass, classification always descends into it, shadowing its siblings. -/
theorem c10_empty_identifier_matches_all {α : Type} [BEq α]
    (ident : List (String × α)) (cs rest : List (EventNode α))
    (headers body data : List (String × α)) :
    EventNode.matchFields (EventNode.mk [] cs) data = true
    ∧ Event.get_event headers body
        (EventNode.mk ident (EventNode.mk [] cs :: rest))
      = Event.get_event headers body (EventNode.mk [] cs) := by
  constructor
  · rfl
  · rw [Event.get_event, Event.get_event_go]
    rw [if_pos (show EventNode.matchFields (EventNode.mk [] cs)
      (Event.normalize_dicts [headers, body]) = true from rfl)]

theorem dlookup_map_self {α : Type} (g : String → α) (l : List String)
    (k : String) :
    dlookup (l.map (fun f => (f, g f))) k
      = if k ∈ l then some (g k) else none := by
  induction l with
  | nil => simp [dlookup]
  | cons a rest ih =>
    by_cases hak : a = k
    · simp [dlookup, hak]
    · simp [dlookup, hak, ih, show ¬(k = a) from fun h => hak h.symm]

theorem lazy_requester_exchanges_le_one (env : Env)
    (app_id installation_id : Int) (st : LazyObj) :
    (LazyCompletableGithubObject.lazy_requester env app_id installation_id
      st).2.2 ≤ 1 := by
  unfold LazyCompletableGithubObject.lazy_requester
  cases hr : st._lazy_requester with
  | some r => simp
  | none =>
    cases hpk : (match env.getenv_private_key with
                 | some pk => if pk = "" then env.private_key_file else some pk
                 | none => env.private_key_file) with
    | none => simp
    | some pk =>
      cases htok : env.get_access_token app_id pk installation_id with
      | error e => simp [htok]
      | ok tok => simp [htok]

/-- The successful fetch path of one intercepted access: guard passes,
requester construction succeeds, the GET succeeds; the whole instance dict
is replaced by the dict of new_self, so the requester cache is None again
afterwards. -/
theorem getattribute_fetch_success (env : Env)
    (app_id installation_id : Int) (st : LazyObj) (item pk tok : String)
    (data : List (String × Option String))
    (hitem : pyStartswith item "_lazy" = false)
    (hinit : st._lazy_initialized = true)
    (hreq : st._lazy_requester = none)
    (hval : st.superRead item = none)
    (hpk : env.getenv_private_key = some pk)
    (hpk0 : ¬pk = "")
    (htok : env.get_access_token app_id pk installation_id = Except.ok tok)
    (hget : env.requestJsonAndCheck ⟨tok⟩ st.url = Except.ok data) :
    LazyCompletableGithubObject.getattribute env app_id installation_id st
        item
      = ⟨Except.ok ((LazyObj.init st.declared st.url data true).superRead
            item),
          LazyObj.init st.declared st.url data true, 1, 1⟩ := by
  have hlr : LazyCompletableGithubObject.lazy_requester env app_id
      installation_id st
      = (Except.ok ⟨tok⟩, { st with _lazy_requester := some ⟨tok⟩ }, 1) := by
    simp only [LazyCompletableGithubObject.lazy_requester, hreq, hpk, hpk0,
      if_false, htok]
  have hguard : (!pyStartswith item "_lazy" && st._lazy_initialized
      && st._lazy_requester.isNone && (st.superRead item).isNone) = true := by
    rw [hitem, hinit, hreq, hval]; rfl
  unfold LazyCompletableGithubObject.getattribute
  rw [if_pos hguard, hlr]
  dsimp only
  rw [hget]

/-- The failing GET path: guard passes, requester construction succeeds and
caches the requester, the GET raises; the exception propagates and the
instance dict is left as it was, with the requester now cached. -/
theorem getattribute_http_fail (env : Env)
    (app_id installation_id : Int) (st : LazyObj) (item pk tok : String)
    (e : FetchErr)
    (hitem : pyStartswith item "_lazy" = false)
    (hinit : st._lazy_initialized = true)
    (hreq : st._lazy_requester = none)
    (hval : st.superRead item = none)
    (hpk : env.getenv_private_key = some pk)
    (hpk0 : ¬pk = "")
    (htok : env.get_access_token app_id pk installation_id = Except.ok tok)
    (hget : env.requestJsonAndCheck ⟨tok⟩ st.url = Except.error e) :
    LazyCompletableGithubObject.getattribute env app_id installation_id st
        item
      = ⟨Except.error e, { st with _lazy_requester := some ⟨tok⟩ }, 1, 1⟩ := by
  have hlr : LazyCompletableGithubObject.lazy_requester env app_id
      installation_id st
      = (Except.ok ⟨tok⟩, { st with _lazy_requester := some ⟨tok⟩ }, 1) := by
    simp only [LazyCompletableGithubObject.lazy_requester, hreq, hpk, hpk0,
      if_false, htok]
  have hguard : (!pyStartswith item "_lazy" && st._lazy_initialized
      && st._lazy_requester.isNone && (st.superRead item).isNone) = true := by
    rw [hitem, hinit, hreq, hval]; rfl
  unfold LazyCompletableGithubObject.getattribute
  rw [if_pos hguard, hlr]
  dsimp only
  rw [hget]

/-- When a requester is already cached on the object, the guard fails and
the access returns the raw value with no fetch and no exchange. -/
theorem getattribute_requester_cached (env : Env)
    (app_id installation_id : Int) (st : LazyObj) (item : String)
    (r : Requester) (hr : st._lazy_requester = some r) :
    LazyCompletableGithubObject.getattribute env app_id installation_id st
        item
      = ⟨Except.ok (st.superRead item), st, 0, 0⟩ := by
  unfold LazyCompletableGithubObject.getattribute
  rw [hr, if_neg (by simp)]

/-- When the read value is not None, the guard fails and the access returns
it with no fetch and no exchange. -/
theorem getattribute_value_present (env : Env)
    (app_id installation_id : Int) (st : LazyObj) (item v : String)
    (hv : st.superRead item = some v) :
    LazyCompletableGithubObject.getattribute env app_id installation_id st
        item
      = ⟨Except.ok (some v), st, 0, 0⟩ := by
  unfold LazyCompletableGithubObject.getattribute
  rw [hv, if_neg (by simp)]

/-- C2: the claim says the token exchange happens at most once per lazy
resource across all field accesses. Counterexample: after a successful
fetch the dict update writes _lazy_requester=None back, so a second access
to a field the response left unset performs a second exchange: two
exchanges on the same resource. -/
theorem c2_counterexample :
    ¬((LazyCompletableGithubObject.getattribute c2_env 1 55 c2_st
          "attr1").exchanges
        + (LazyCompletableGithubObject.getattribute c2_env 1 55
            (LazyCompletableGithubObject.getattribute c2_env 1 55 c2_st
              "attr1").st "attr1").exchanges
      ≤ 1) := by decide

/-- C2 amended: the exchange is performed at most once per intercepted
field access (within one access the requester is cached before the GET);
there is no cross access or process wide token cache in the code. -/
theorem c2_exchange_at_most_once_per_access (env : Env)
    (app_id installation_id : Int) (st : LazyObj) (item : String) :
    (LazyCompletableGithubObject.getattribute env app_id installation_id st
      item).exchanges ≤ 1 := by
  by_cases hguard : (!pyStartswith item "_lazy" && st._lazy_initialized
      && st._lazy_requester.isNone && (st.superRead item).isNone) = true
  · rcases hlr : LazyCompletableGithubObject.lazy_requester env app_id
        installation_id st with ⟨res, st1, ex⟩
    have hex : ex ≤ 1 := by
      have h := lazy_requester_exchanges_le_one env app_id installation_id st
      rw [hlr] at h
      exact h
    unfold LazyCompletableGithubObject.getattribute
    rw [if_pos hguard, hlr]
    cases res with
    | error e => simpa using hex
    | ok r =>
      cases h2 : env.requestJsonAndCheck r st1.url with
      | error e => simpa [h2] using hex
      | ok data => simpa [h2] using hex
  · unfold LazyCompletableGithubObject.getattribute
    rw [if_neg hguard]
    simp

/-- C3: the claim says the first read of an absent field fetches exactly
once and any subsequent read fetches zero times. Counterexample: when the
fetched payload does not carry the field, the field is still unset and the
requester cache was reset by the dict update, so the second read fetches
again. -/
theorem c3_counterexample :
    (LazyCompletableGithubObject.getattribute c3_env 1 55 c3_st
        "attr1").fetches = 1
    ∧ ¬((LazyCompletableGithubObject.getattribute c3_env 1 55
          (LazyCompletableGithubObject.getattribute c3_env 1 55 c3_st
            "attr1").st "attr1").fetches = 0) := by decide

/-- C3 amended: when the fetch succeeds and its response carries a non None
value for the accessed field, the first read of the absent field performs
exactly one fetch and returns that value, and a subsequent read of the same
field performs zero fetches. -/
theorem c3_single_fetch_when_response_sets_field (env : Env)
    (app_id installation_id : Int) (declared : List String)
    (data0 data1 : List (String × Option String))
    (url item pk tok v : String) (completed : Bool)
    (hitem : pyStartswith item "_lazy" = false)
    (habsent : dlookup data0 item = none)
    (hdecl : item ∈ declared)
    (hpk : env.getenv_private_key = some pk)
    (hpk0 : ¬pk = "")
    (htok : env.get_access_token app_id pk installation_id = Except.ok tok)
    (hget : env.requestJsonAndCheck ⟨tok⟩ url = Except.ok data1)
    (hv : dlookup data1 item = some (some v)) :
    (LazyCompletableGithubObject.getattribute env app_id installation_id
        (LazyObj.init declared url data0 completed) item).fetches = 1
    ∧ (LazyCompletableGithubObject.getattribute env app_id installation_id
        (LazyObj.init declared url data0 completed) item).result
      = Except.ok (some v)
    ∧ (LazyCompletableGithubObject.getattribute env app_id installation_id
        (LazyCompletableGithubObject.getattribute env app_id installation_id
          (LazyObj.init declared url data0 completed) item).st
        item).fetches = 0 := by
  have hval : (LazyObj.init declared url data0 completed).superRead item
      = none := by
    simp [LazyObj.superRead, LazyObj.init, dlookup_map_self, hdecl, habsent]
  have h1 := getattribute_fetch_success env app_id installation_id
    (LazyObj.init declared url data0 completed) item pk tok data1
    hitem rfl rfl hval hpk hpk0 htok hget
  have hsr2 : (LazyObj.init (LazyObj.init declared url data0 completed
        ).declared (LazyObj.init declared url data0 completed).url data1
        true).superRead item = some v := by
    simp [LazyObj.superRead, LazyObj.init, dlookup_map_self, hdecl, hv]
  refine ⟨?_, ?_, ?_⟩
  · rw [h1]
  · rw [h1]
    dsimp only
    rw [hsr2]
  · rw [h1]
    dsimp only
    rw [getattribute_value_present env app_id installation_id _ item v hsr2]

/-- Witness for C3 amended at a concrete input: the scenario of the
repository test, a resource with attr1 absent whose fetch answers
attr1=value1. -/
theorem c3_witness :
    (LazyCompletableGithubObject.getattribute c3w_env 1 55
        (LazyObj.init ["attr1"] "resource-url" [] false) "attr1").fetches = 1
    ∧ (LazyCompletableGithubObject.getattribute c3w_env 1 55
        (LazyObj.init ["attr1"] "resource-url" [] false) "attr1").result
      = Except.ok (some "value1")
    ∧ (LazyCompletableGithubObject.getattribute c3w_env 1 55
        (LazyCompletableGithubObject.getattribute c3w_env 1 55
          (LazyObj.init ["attr1"] "resource-url" [] false) "attr1").st
        "attr1").fetches = 0 :=
  c3_single_fetch_when_response_sets_field c3w_env 1 55 ["attr1"] []
    [("attr1", some "value1")] "resource-url" "attr1" "private-key"
    "installation-token" "value1" false (by decide) rfl (by decide) rfl
    (by decide) rfl rfl rfl

/-- C4: the claim says that after any failed fetch a subsequent access to
the still unset field triggers the fetch again. Counterexample: after a
failed GET the requester stays cached, so the next access performs zero
fetches and silently returns None. -/
theorem c4_counterexample :
    (LazyCompletableGithubObject.getattribute c4_env 1 55 c4_st
        "attr1").result = Except.error FetchErr.httpFailed
    ∧ (LazyCompletableGithubObject.getattribute c4_env 1 55 c4_st
        "attr1").st.superRead "attr1" = none
    ∧ (LazyCompletableGithubObject.getattribute c4_env 1 55
        (LazyCompletableGithubObject.getattribute c4_env 1 55 c4_st
          "attr1").st "attr1").fetches = 0 := ⟨rfl, rfl, rfl⟩

/-- C4 amended: a failed GET propagates its error to the caller of the
field access and leaves the fields and the completed flag unchanged, but it
leaves the requester cached, so a subsequent access to the still unset
field performs no fetch and returns None. -/
theorem c4_fetch_failure_propagates_no_retry (env : Env)
    (app_id installation_id : Int) (st : LazyObj) (item pk tok : String)
    (e : FetchErr)
    (hitem : pyStartswith item "_lazy" = false)
    (hinit : st._lazy_initialized = true)
    (hreq : st._lazy_requester = none)
    (hval : st.superRead item = none)
    (hpk : env.getenv_private_key = some pk)
    (hpk0 : ¬pk = "")
    (htok : env.get_access_token app_id pk installation_id = Except.ok tok)
    (hget : env.requestJsonAndCheck ⟨tok⟩ st.url = Except.error e) :
    (LazyCompletableGithubObject.getattribute env app_id installation_id st
        item).result = Except.error e
    ∧ (LazyCompletableGithubObject.getattribute env app_id installation_id st
        item).st.rawFields = st.rawFields
    ∧ (LazyCompletableGithubObject.getattribute env app_id installation_id st
        item).st.completed = st.completed
    ∧ (LazyCompletableGithubObject.getattribute env app_id installation_id
        (LazyCompletableGithubObject.getattribute env app_id installation_id
          st item).st item).fetches = 0
    ∧ (LazyCompletableGithubObject.getattribute env app_id installation_id
        (LazyCompletableGithubObject.getattribute env app_id installation_id
          st item).st item).result = Except.ok none := by
  have h1 := getattribute_http_fail env app_id installation_id st item pk tok
    e hitem hinit hreq hval hpk hpk0 htok hget
  have h2 := getattribute_requester_cached env app_id installation_id
    { st with _lazy_requester := some ⟨tok⟩ } item ⟨tok⟩ rfl
  refine ⟨?_, ?_, ?_, ?_, ?_⟩
  · rw [h1]
  · rw [h1]
  · rw [h1]
  · rw [h1]
    dsimp only
    rw [h2]
  · rw [h1]
    dsimp only
    rw [h2]
    dsimp only
    show Except.ok (st.superRead item) = Except.ok none
    rw [hval]

/-- Witness for C4 amended at a concrete input. -/
theorem c4_witness :
    (LazyCompletableGithubObject.getattribute c4w_env 1 55
        (LazyObj.init ["attr1"] "resource-url" [] false) "attr1").result
      = Except.error FetchErr.httpFailed
    ∧ (LazyCompletableGithubObject.getattribute c4w_env 1 55
        (LazyObj.init ["attr1"] "resource-url" [] false) "attr1").st.rawFields
      = (LazyObj.init ["attr1"] "resource-url" [] false).rawFields
    ∧ (LazyCompletableGithubObject.getattribute c4w_env 1 55
        (LazyObj.init ["attr1"] "resource-url" [] false) "attr1").st.completed
      = (LazyObj.init ["attr1"] "resource-url" [] false).completed
    ∧ (LazyCompletableGithubObject.getattribute c4w_env 1 55
        (LazyCompletableGithubObject.getattribute c4w_env 1 55
          (LazyObj.init ["attr1"] "resource-url" [] false) "attr1").st
        "attr1").fetches = 0
    ∧ (LazyCompletableGithubObject.getattribute c4w_env 1 55
        (LazyCompletableGithubObject.getattribute c4w_env 1 55
          (LazyObj.init ["attr1"] "resource-url" [] false) "attr1").st
        "attr1").result = Except.ok none :=
  c4_fetch_failure_propagates_no_retry c4w_env 1 55
    (LazyObj.init ["attr1"] "resource-url" [] false) "attr1" "private-key"
    "installation-token" FetchErr.httpFailed (by decide) rfl rfl rfl rfl
    (by decide) rfl rfl

/-- C5: the claim says a field legitimately holding None is not treated as
unset and does not trigger a fetch. Counterexample: the slot of attr1 is a
set None, distinct from the NotSet marker, and reading it does trigger a
fetch, because the fetch guard tests the unwrapped value against None. -/
theorem c5_counterexample :
    dlookup c5_st.rawFields "attr1" = some (some none)
    ∧ ¬((LazyCompletableGithubObject.getattribute c5_env 1 55 c5_st
          "attr1").fetches = 0) := by decide

/-- C5 amended: the storage layer does distinguish the NotSet marker from a
stored None, but the fetch trigger tests only the unwrapped value, so
reading a field that legitimately holds None while no requester is cached
triggers a fetch exactly like an unset field. -/
theorem c5_none_triggers_fetch (env : Env)
    (app_id installation_id : Int) (st : LazyObj) (item pk tok : String)
    (data : List (String × Option String))
    (hitem : pyStartswith item "_lazy" = false)
    (hinit : st._lazy_initialized = true)
    (hreq : st._lazy_requester = none)
    (hstored : dlookup st.rawFields item = some (some none))
    (hpk : env.getenv_private_key = some pk)
    (hpk0 : ¬pk = "")
    (htok : env.get_access_token app_id pk installation_id = Except.ok tok)
    (hget : env.requestJsonAndCheck ⟨tok⟩ st.url = Except.ok data) :
    (LazyCompletableGithubObject.getattribute env app_id installation_id st
      item).fetches = 1 := by
  have hval : st.superRead item = none := by
    simp [LazyObj.superRead, hstored]
  rw [getattribute_fetch_success env app_id installation_id st item pk tok
    data hitem hinit hreq hval hpk hpk0 htok hget]

/-- Witness for C5 amended at a concrete input. -/
theorem c5_witness :
    (LazyCompletableGithubObject.getattribute c5w_env 1 55
        (LazyObj.init ["attr1"] "resource-url" [("attr1", none)] true)
        "attr1").fetches = 1 :=
  c5_none_triggers_fetch c5w_env 1 55
    (LazyObj.init ["attr1"] "resource-url" [("attr1", none)] true) "attr1"
    "private-key" "installation-token" [("attr1", some "value1")]
    (by decide) rfl rfl rfl rfl (by decide) rfl rfl

/-- C7: grafting the lazy capability twice is idempotent: the second
application of get_lazy_instance changes nothing on the class, and a class
that did not have the capability ends with exactly one lazy base. -/
theorem c7_get_lazy_instance_idempotent (clazz : PyClass)
    (a1 a2 : List (String × Option String)) :
    (LazyCompletableGithubObject.get_lazy_instance
        (LazyCompletableGithubObject.get_lazy_instance clazz a1).1 a2).1
      = (LazyCompletableGithubObject.get_lazy_instance clazz a1).1
    ∧ ("LazyCompletableGithubObject" ∉ clazz.bases →
        ((LazyCompletableGithubObject.get_lazy_instance
            (LazyCompletableGithubObject.get_lazy_instance clazz a1).1
            a2).1).bases.count "LazyCompletableGithubObject" = 1) := by
  have hml : ∀ c : PyClass,
      LazyCompletableGithubObject.make_lazy
        (LazyCompletableGithubObject.make_lazy c)
        = LazyCompletableGithubObject.make_lazy c := by
    intro c
    unfold LazyCompletableGithubObject.make_lazy
    by_cases hc : "LazyCompletableGithubObject" ∈ c.bases
    · rw [if_pos hc, if_pos hc]
    · rw [if_neg hc, if_pos (List.mem_cons_self _ _)]
  constructor
  · show LazyCompletableGithubObject.make_lazy
        (LazyCompletableGithubObject.make_lazy clazz)
        = LazyCompletableGithubObject.make_lazy clazz
    exact hml clazz
  · intro hnot
    show (LazyCompletableGithubObject.make_lazy
        (LazyCompletableGithubObject.make_lazy clazz)).bases.count
        "LazyCompletableGithubObject" = 1
    rw [hml clazz]
    unfold LazyCompletableGithubObject.make_lazy
    rw [if_neg hnot]
    have hzero : clazz.bases.count "LazyCompletableGithubObject" = 0 :=
      List.count_eq_zero.mpr hnot
    simp [List.count_cons, hzero]

/-- Witness for C7 at a concrete class without the capability. -/
theorem c7_witness :
    ((LazyCompletableGithubObject.get_lazy_instance
        (LazyCompletableGithubObject.get_lazy_instance
          (PyClass.mk ["CompletableGithubObject"] ["attr1"]) []).1
        []).1).bases.count "LazyCompletableGithubObject" = 1 :=
  (c7_get_lazy_instance_idempotent
    (PyClass.mk ["CompletableGithubObject"] ["attr1"]) [] []).2 (by decide)

/-- C9: accessing a configuration field that does not exist, with no
default supplied, raises the distinct no-such-config-value error, both
through attribute access and through get with no default; it never returns
a null-like success. -/
theorem c9_missing_config_raises (attrs : List (String × ConfigTree))
    (item : String)
    (hmissing : dlookup attrs item = none)
    (hsplit : pySplitDot item = [item]) :
    ConfigValue.getattr (ConfigTree.node attrs) item
      = Except.error (ConfigErr.noSuchValue item)
    ∧ ConfigValue.get (ConfigTree.node attrs) item none
      = Except.error (ConfigErr.noSuchValue item) := by
  have hga : ConfigValue.getattr (ConfigTree.node attrs) item
      = Except.error (ConfigErr.noSuchValue item) := by
    simp [ConfigValue.getattr, hmissing]
  refine ⟨hga, ?_⟩
  unfold ConfigValue.get
  rw [hsplit]
  simp [List.foldlM, hga]

/-- Witness for C9 at a concrete input: an empty configuration and the
field missing_key. -/
theorem c9_witness :
    ConfigValue.getattr (ConfigTree.node []) "missing_key"
      = Except.error (ConfigErr.noSuchValue "missing_key")
    ∧ ConfigValue.get (ConfigTree.node []) "missing_key" none
      = Except.error (ConfigErr.noSuchValue "missing_key") :=
  c9_missing_config_raises [] "missing_key" rfl (by decide)

theorem hget_ok_iff (headers : List (String × String)) (k v : String) :
    hget headers k = Except.ok v ↔ dlookup headers k = some v := by
  unfold hget
  cases hd : dlookup headers k <;> simp

/-- A successful construction stores the delivery header from its own
headers argument in the shared class state. -/
theorem event_init_delivery (gh requester : Nat)
    (headers : List (String × String))
    (sender repository : Option (List (String × BVal)))
    (body : List (String × BVal)) (cls cls' : EventClassState)
    (e : EventInst)
    (h : Event.init gh requester headers sender repository body cls
      = Except.ok (cls', e)) :
    cls'.delivery = dlookup headers "X-Github-Delivery" := by
  unfold Event.init at h
  simp only [bind, Except.bind] at h
  repeat' split at h
  all_goals
    first
    | exact Except.noConfusion h
    | (simp only [Except.ok.injEq, Prod.mk.injEq] at h
       obtain ⟨h1, h2⟩ := h
       subst h1
       simp_all [hget_ok_iff])

/-- C8: the claim says constructing a second event leaves the metadata of
the first event unchanged. Counterexample: the metadata lives in class
attributes shared by all events, so after the second construction the
first event reads the delivery id of the second event. -/
theorem c8_counterexample :
    Event.read_delivery c8_first.2 c8_first.1 = some "d1"
    ∧ Event.read_delivery c8_first.2 c8_second.1 = some "d2"
    ∧ ¬(Event.read_delivery c8_first.2 c8_second.1
        = Event.read_delivery c8_first.2 c8_first.1) := by decide

/-- C8 amended: the per instance state of the first event is untouched, but
the metadata attributes are class level: a second successful construction
overwrites them with its own headers (the result is independent of the
prior class state), so the first event subsequently reads the second
events delivery. -/
theorem c8_class_metadata_overwritten (gh1 r1 gh2 r2 : Nat)
    (h1 h2 : List (String × String))
    (s1 rep1 s2 rep2 : Option (List (String × BVal)))
    (b1 b2 : List (String × BVal)) (cls0 cls1 cls2 : EventClassState)
    (e1 e2 : EventInst)
    (hc1 : Event.init gh1 r1 h1 s1 rep1 b1 cls0 = Except.ok (cls1, e1))
    (hc2 : Event.init gh2 r2 h2 s2 rep2 b2 cls1 = Except.ok (cls2, e2)) :
    Event.read_delivery e1 cls2 = dlookup h2 "X-Github-Delivery"
    ∧ Event.init gh2 r2 h2 s2 rep2 b2 cls1
      = Event.init gh2 r2 h2 s2 rep2 b2 cls0 := by
  constructor
  · exact event_init_delivery gh2 r2 h2 s2 rep2 b2 cls1 cls2 e2 hc2
  · rfl

/-- Witness for C8 amended at the concrete two event scenario. -/
theorem c8_witness :
    Event.read_delivery c8_first.2 c8_second.1
      = dlookup c8_headers2 "X-Github-Delivery"
    ∧ Event.init 0 0 c8_headers2 none none c8_body c8_first.1
      = Event.init 0 0 c8_headers2 none none c8_body
          EventClassState.initial :=
  c8_class_metadata_overwritten 0 0 0 0 c8_headers1 c8_headers2
    none none none none c8_body c8_body EventClassState.initial
    c8_first.1 c8_second.1 c8_first.2 c8_second.2 rfl rfl
